import Mathlib

/-!
Verification of the native-function registration / erasure / invocation core
of YarnSpinner-Rust (`crates/core/src/yarn_fn/function_wrapping.rs`):
the extraction protocol (`YarnValueWrapper`, `ResRef`, `ResOwned`),
the arity-generic signature abstraction (`YarnFn`, generated by
`impl_yarn_fn_tuple` for arities 0 and 1), and the type-erased callable
(`YarnFnWrapper` as `UntypedYarnFn`).

A Rust panic (`unwrap`, or the `let [..] = input[..] else { ... }` slice
pattern failing) aborts the invocation with no result; it is modelled as
`none` in `Option`.
-/

namespace YarnSpinner

/-- Modelled from the spec: the external Dynamic Value type (`YarnValue`),
"a tagged union over {boolean, string, signed/unsigned integers of several
widths, floating point}", restricted to the kinds exercised by the parameter
and return impls present in the source (`bool`, `String`, `usize`). -/
inductive YarnValue where
  | boolean : Bool → YarnValue
  | str : String → YarnValue
  | number : Nat → YarnValue
  deriving DecidableEq

/-- Modelled from the spec: `TryFrom<YarnValue> for String` at the boundary,
"fails with a typed conversion error when kinds mismatch". -/
def YarnValue.tryIntoString : YarnValue → Option String
  | .str s => some s
  | _ => none

/-- Modelled from the spec: `TryFrom<YarnValue> for usize`; fails when the
dynamic kind is not numeric. -/
def YarnValue.tryIntoUsize : YarnValue → Option Nat
  | .number n => some n
  | _ => none

/-- Modelled from the spec: `TryFrom<YarnValue> for bool`; fails when the
dynamic kind is not boolean. -/
def YarnValue.tryIntoBool : YarnValue → Option Bool
  | .boolean b => some b
  | _ => none

/-- The contents of the `Box<dyn Any>` stored in a slot after conversion:
one of the closed set of concrete conversion targets. -/
inductive Converted where
  | str : String → Converted
  | num : Nat → Converted
  | boolean : Bool → Converted
  deriving DecidableEq

/-- The concrete conversion target type `T` used by
`YarnValueWrapper::convert::<T>`. -/
inductive ConvTy where
  | string
  | usize
  | bool
  deriving DecidableEq

/-- Dispatches the `TryFrom<YarnValue>` conversion for a conversion target. -/
def ConvTy.tryFromYarn : ConvTy → YarnValue → Option Converted
  | .string, v => v.tryIntoString.map Converted.str
  | .usize, v => v.tryIntoUsize.map Converted.num
  | .bool, v => v.tryIntoBool.map Converted.boolean

/-- `YarnValueWrapper`: the per-call parameter slot, holding the raw dynamic
value until conversion and the converted `Box<dyn Any>` afterwards. -/
structure YarnValueWrapper where
  raw : Option YarnValue
  converted : Option Converted
  deriving DecidableEq

/-- `impl From<YarnValue> for YarnValueWrapper`. -/
def YarnValueWrapper.fromValue (v : YarnValue) : YarnValueWrapper :=
  { raw := some v, converted := none }

/-- `YarnValueWrapper::convert::<T>`: takes the raw value out of the slot
(`std::mem::take` then `unwrap`, a panic when the slot was already taken),
converts it (`try_into().unwrap()`, a panic when the dynamic kind
mismatches), and stores the owned result in `converted`. -/
def YarnValueWrapper.convert (t : ConvTy) (w : YarnValueWrapper) :
    Option YarnValueWrapper :=
  match w.raw with
  | none => none
  | some raw =>
    match t.tryFromYarn raw with
    | none => none
    | some c => some { raw := none, converted := some c }

/-- The parameter types for which the source implements `YarnFnParam`:
`&str` (via `ResRef<String, str>`), `String` and `usize`
(via `ResOwned`). -/
inductive ParamTy where
  | strRef
  | string
  | usize
  deriving DecidableEq

/-- The native Lean-side carrier of each parameter type; the `&str` view is
carried as the string it views. -/
@[reducible]
def ParamTy.carrier : ParamTy → Type
  | .strRef => String
  | .string => String
  | .usize => Nat

/-- The conversion target `T` each `YarnFnParam` impl passes to
`convert::<T>`: `&str` converts through owned `String`. -/
def ParamTy.convTarget : ParamTy → ConvTy
  | .strRef => .string
  | .string => .string
  | .usize => .usize

/-- `YarnFnParam::retrieve` for each implemented parameter type.
`&str` follows `ResRef`: `convert::<String>`, then
`converted.as_ref().unwrap().downcast_ref::<String>().unwrap()` and the
`as_ref` view into the stored string — the slot keeps its converted value.
`String` and `usize` follow `ResOwned`: `convert::<T>`, then
`converted.take().unwrap().downcast::<T>().unwrap()` — the slot is left
empty. Every `unwrap` panic is `none`. -/
def retrieveParam : (t : ParamTy) → YarnValueWrapper →
    Option (t.carrier × YarnValueWrapper)
  | .strRef, w =>
    match w.convert .string with
    | none => none
    | some w' =>
      match w'.converted with
      | some (.str s) => some (s, w')
      | _ => none
  | .string, w =>
    match w.convert .string with
    | none => none
    | some w' =>
      match w'.converted with
      | some (.str s) => some (s, { w' with converted := none })
      | _ => none
  | .usize, w =>
    match w.convert .usize with
    | none => none
    | some w' =>
      match w'.converted with
      | some (.num n) => some (n, { w' with converted := none })
      | _ => none

/-- The return types accepted by the erasure (`IntoYarnValueFromNonYarnValue`
implementors among the kinds this model covers). -/
inductive OutTy where
  | bool
  | string
  | usize
  deriving DecidableEq

/-- The native Lean-side carrier of each return type. -/
@[reducible]
def OutTy.carrier : OutTy → Type
  | .bool => Bool
  | .string => String
  | .usize => Nat

/-- Modelled from the spec: `IntoYarnValueFromNonYarnValue`, "the reverse
`Into(ConcreteType) -> DynamicValue` for return values". -/
def OutTy.intoUntypedValue : (t : OutTy) → t.carrier → YarnValue
  | .bool, b => .boolean b
  | .string, s => .str s
  | .usize, n => .number n

/-- The runtime type identities `TypeId::of::<T>` distinguishes for the
parameter and return types in this model. -/
inductive TypeIdent where
  | boolT
  | stringT
  | strRefT
  | usizeT
  deriving DecidableEq

/-- `TypeId::of` for a parameter type (`&str`, `String`, `usize` are three
distinct `TypeId`s). -/
def ParamTy.typeIdent : ParamTy → TypeIdent
  | .strRef => .strRefT
  | .string => .stringT
  | .usize => .usizeT

/-- `TypeId::of` for a return type. -/
def OutTy.typeIdent : OutTy → TypeIdent
  | .bool => .boolT
  | .string => .stringT
  | .usize => .usizeT

/-- A statically typed native function of arity 0, as captured by the
`impl_yarn_fn_tuple` instantiation for the empty tuple. -/
structure YarnFn0 where
  oty : OutTy
  func : Unit → oty.carrier

/-- A statically typed native function of arity 1, as captured by the
`impl_yarn_fn_tuple` instantiation for one parameter. -/
structure YarnFn1 where
  pty : ParamTy
  oty : OutTy
  func : pty.carrier → oty.carrier

/-- `YarnFn::call` generated at arity 0: the slice pattern
`let [] = input[..]` panics ("Wrong number of arguments") unless the input
is empty, then the function is invoked with no arguments. -/
def YarnFn0.call (f : YarnFn0) (input : List YarnValue) :
    Option f.oty.carrier :=
  match input with
  | [] => some (f.func ())
  | _ => none

/-- `YarnFn::call` generated at arity 1: the slice pattern
`let [p] = input[..]` panics unless the input has exactly one element; the
element is wrapped in a fresh `YarnValueWrapper`, retrieved once through
`YarnFnParam::retrieve`, and the function is invoked with the result. -/
def YarnFn1.call (f : YarnFn1) (input : List YarnValue) :
    Option f.oty.carrier :=
  match input with
  | [v] =>
    match retrieveParam f.pty (YarnValueWrapper.fromValue v) with
    | none => none
    | some (p, _) => some (f.func p)
  | _ => none

/-- `YarnFn::parameter_types` at arity 0. -/
def YarnFn0.parameterTypes (_ : YarnFn0) : List TypeIdent := []

/-- `YarnFn::parameter_types` at arity 1. -/
def YarnFn1.parameterTypes (f : YarnFn1) : List TypeIdent := [f.pty.typeIdent]

/-- The statically typed function held by a wrapper, at one of the arities
the source instantiates. -/
inductive YarnFnKind where
  | f0 : YarnFn0 → YarnFnKind
  | f1 : YarnFn1 → YarnFnKind

/-- The declared arity of the captured function. -/
def YarnFnKind.arity : YarnFnKind → Nat
  | .f0 _ => 0
  | .f1 _ => 1

/-- `YarnFnWrapper`: the type-erased callable. It owns the function; the
`Marker` type parameter is compile-time only, but its `type_name` (and the
`type_name` of the function type `F`) are fixed at wrapping time and are
what the `Debug` impl prints, so the model carries those two strings. -/
structure YarnFnWrapper where
  function : YarnFnKind
  markerName : String
  functionPath : String

/-- `UntypedYarnFn::call` for `YarnFnWrapper`: delegates to the typed
`YarnFn::call`, then converts the native result with
`into_untyped_value`. -/
def YarnFnKind.call : YarnFnKind → List YarnValue → Option YarnValue
  | .f0 f, input => (f.call input).map f.oty.intoUntypedValue
  | .f1 f, input => (f.call input).map f.oty.intoUntypedValue

/-- `UntypedYarnFn::call` on the erased wrapper. -/
def YarnFnWrapper.call (w : YarnFnWrapper) (input : List YarnValue) :
    Option YarnValue :=
  w.function.call input

/-- `UntypedYarnFn::clone_box`: `Box::new(self.clone())`, a field-wise
clone of the wrapper (the function is `Clone`, the marker is phantom). -/
def YarnFnWrapper.cloneBox (w : YarnFnWrapper) : YarnFnWrapper :=
  { function := w.function
    markerName := w.markerName
    functionPath := w.functionPath }

/-- `UntypedYarnFn::parameter_types`: forwarded to the typed function. -/
def YarnFnWrapper.parameterTypes (w : YarnFnWrapper) : List TypeIdent :=
  match w.function with
  | .f0 f => f.parameterTypes
  | .f1 f => f.parameterTypes

/-- `UntypedYarnFn::return_type`: forwarded to the typed function, whose
default is `TypeId::of::<Self::Out>`. -/
def YarnFnWrapper.returnType (w : YarnFnWrapper) : TypeIdent :=
  match w.function with
  | .f0 f => f.oty.typeIdent
  | .f1 f => f.oty.typeIdent

/-- The `Debug` output of `YarnFnWrapper`:
`format!("{signature} {\x7bfunction_path\x7d}")` with the marker's type name
as the signature. -/
def YarnFnWrapper.debugString (w : YarnFnWrapper) : String :=
  w.markerName ++ " \x7b" ++ w.functionPath ++ "\x7d"

/-- `PartialEq for Box<dyn UntypedYarnFn>`: compares the two `Debug`
outputs as strings. -/
def YarnFnWrapper.beqUntyped (a b : YarnFnWrapper) : Bool :=
  a.debugString == b.debugString

/-- Modelled from the spec: per-slot extraction over the two-slot call
state of an arity-2 instantiation of the `impl_yarn_fn_tuple` pattern
(§4.2: "the mechanism generalizes to N via the same pattern"; the source
instantiates only arities 0 and 1). The generated call body holds one
fresh `YarnValueWrapper` per argument as separate locals and passes each
by `&mut` to exactly one `retrieve`; this is extraction at the first
slot. -/
def retrieveAt1 (t : ParamTy) (s : YarnValueWrapper × YarnValueWrapper) :
    Option (t.carrier × (YarnValueWrapper × YarnValueWrapper)) :=
  match retrieveParam t s.1 with
  | none => none
  | some (p, w') => some (p, (w', s.2))

/-- Modelled from the spec: extraction at the second slot of the two-slot
call state; see `retrieveAt1`. -/
def retrieveAt2 (t : ParamTy) (s : YarnValueWrapper × YarnValueWrapper) :
    Option (t.carrier × (YarnValueWrapper × YarnValueWrapper)) :=
  match retrieveParam t s.2 with
  | none => none
  | some (p, w') => some (p, (s.1, w'))

/-- Modelled from the spec: `YarnFn::call` at arity 2 following the same
generated pattern as arities 0 and 1: the slice-pattern arity check, one
fresh wrapper per argument, strictly left-to-right retrieval, then the
native call. -/
def call2 (pty1 pty2 : ParamTy) (oty : OutTy)
    (f : pty1.carrier → pty2.carrier → oty.carrier)
    (input : List YarnValue) : Option oty.carrier :=
  match input with
  | [v1, v2] =>
    match retrieveAt1 pty1
        (YarnValueWrapper.fromValue v1, YarnValueWrapper.fromValue v2) with
    | none => none
    | some (p1, s1) =>
      match retrieveAt2 pty2 s1 with
      | none => none
      | some (p2, _) => some (f p1 p2)
  | _ => none

/-- The test function of `accepts_no_params` and the spec's Scenario A:
`fn f() -> bool { true }`. -/
@[reducible]
def constTrueFn : YarnFn0 :=
  { oty := .bool, func := fun _ => true }

/-- The spec's Scenario C: a function taking an owned `usize` and returning
it doubled. -/
@[reducible]
def doubleFn : YarnFn1 :=
  { pty := .usize, oty := .usize, func := fun n => 2 * n }

/-- The spec's Scenario B: a function taking `&str` and returning its
length as `usize`. -/
@[reducible]
def strLenFn : YarnFn1 :=
  { pty := .strRef, oty := .usize, func := String.length }

lemma retrieveParam_strRef (v : YarnValue) :
    retrieveParam .strRef (YarnValueWrapper.fromValue v) =
      v.tryIntoString.map
        (fun s => (s, ⟨none, some (.str s)⟩)) := by
  cases v <;> rfl

lemma retrieveParam_string (v : YarnValue) :
    retrieveParam .string (YarnValueWrapper.fromValue v) =
      v.tryIntoString.map (fun s => (s, ⟨none, none⟩)) := by
  cases v <;> rfl

lemma retrieveParam_usize (v : YarnValue) :
    retrieveParam .usize (YarnValueWrapper.fromValue v) =
      v.tryIntoUsize.map (fun n => (n, ⟨none, none⟩)) := by
  cases v <;> rfl

lemma retrieveParam_fromValue_none (t : ParamTy) (v : YarnValue) :
    retrieveParam t (YarnValueWrapper.fromValue v) = none ↔
      t.convTarget.tryFromYarn v = none := by
  cases t <;> cases v <;>
    simp [retrieveParam_strRef, retrieveParam_string, retrieveParam_usize,
      ConvTy.tryFromYarn, ParamTy.convTarget, YarnValue.tryIntoString,
      YarnValue.tryIntoUsize]

lemma retrieveParam_emptySlot (t : ParamTy) :
    retrieveParam t ⟨none, none⟩ = none := by
  cases t <;> rfl

lemma YarnFn1.call_single (f : YarnFn1) (v : YarnValue) :
    f.call [v] =
      (retrieveParam f.pty (YarnValueWrapper.fromValue v)).map
        (fun p => f.func p.1) := by
  cases h : retrieveParam f.pty (YarnValueWrapper.fromValue v) with
  | none => simp [YarnFn1.call, h]
  | some p => simp [YarnFn1.call, h]

/-- C1: for each supported arity (0 and 1), invoking the type-erased
callable with exactly that many correctly-kinded dynamic values (those the
extraction protocol accepts) returns the dynamic value obtained by
converting the native function's direct result with the return-type
conversion. -/
theorem c1_call_converts_direct_result
    (f0 : YarnFn0) (f1 : YarnFn1) (m p m' p' : String) (v : YarnValue)
    (q : f1.pty.carrier) (w' : YarnValueWrapper)
    (h : retrieveParam f1.pty (YarnValueWrapper.fromValue v) =
      some (q, w')) :
    (YarnFnWrapper.mk (.f0 f0) m p).call [] =
        some (f0.oty.intoUntypedValue (f0.func ())) ∧
      (YarnFnWrapper.mk (.f1 f1) m' p').call [v] =
        some (f1.oty.intoUntypedValue (f1.func q)) := by
  constructor
  · rfl
  · simp [YarnFnWrapper.call, YarnFnKind.call, YarnFn1.call_single, h]

/-- Witness for C1: Scenario A (a 0-ary function returning `true`, invoked
with no arguments, yields the dynamic boolean `true`) and Scenario C (a
doubling function on owned `usize`, invoked with the dynamic number 21,
yields the dynamic number 42). -/
theorem c1_call_converts_direct_result_witness :
    retrieveParam doubleFn.pty
        (YarnValueWrapper.fromValue (.number 21)) =
        some (21, ⟨none, none⟩) ∧
      (YarnFnWrapper.mk (.f0 constTrueFn) "fn() -> bool" "f").call [] =
        some (.boolean true) ∧
      (YarnFnWrapper.mk (.f1 doubleFn) "fn(usize) -> usize" "g").call
        [.number 21] = some (.number 42) :=
  ⟨rfl,
    (c1_call_converts_direct_result constTrueFn doubleFn "fn() -> bool" "f"
      "fn(usize) -> usize" "g" (.number 21) 21 ⟨none, none⟩ rfl).1,
    (c1_call_converts_direct_result constTrueFn doubleFn "fn() -> bool" "f"
      "fn(usize) -> usize" "g" (.number 21) 21 ⟨none, none⟩ rfl).2⟩

/-- C2: invoking a wrapped function with an argument count different from
its declared arity always fails (the "Wrong number of arguments" panic of
the slice pattern): no truncation, padding, or default substitution. -/
theorem c2_arity_mismatch_fails (w : YarnFnWrapper)
    (args : List YarnValue) (h : args.length ≠ w.function.arity) :
    w.call args = none := by
  cases w with
  | mk k m p =>
    cases k with
    | f0 f =>
      cases args with
      | nil => simp [YarnFnKind.arity] at h
      | cons a rest => rfl
    | f1 f =>
      cases args with
      | nil => rfl
      | cons a rest =>
        cases rest with
        | nil => simp [YarnFnKind.arity] at h
        | cons b rest2 => rfl

/-- Witness for C2: Scenario D — a registered 1-argument function invoked
with zero arguments fails. -/
theorem c2_arity_mismatch_fails_witness :
    ([] : List YarnValue).length ≠
        (YarnFnWrapper.mk (.f1 doubleFn) "m" "g").function.arity ∧
      (YarnFnWrapper.mk (.f1 doubleFn) "m" "g").call [] = none :=
  ⟨by decide,
    c2_arity_mismatch_fails (YarnFnWrapper.mk (.f1 doubleFn) "m" "g") []
      (by decide)⟩

/-- C3: when the argument's dynamic value cannot be converted to the
concrete type its parameter slot requires, the whole invocation fails with
no result value; in particular a function expecting a numeric argument
invoked with a dynamic string value fails. -/
theorem c3_conversion_failure_fails_call (f : YarnFn1) (m p : String)
    (v : YarnValue) (h : f.pty.convTarget.tryFromYarn v = none) :
    (YarnFnWrapper.mk (.f1 f) m p).call [v] = none ∧
      (f.pty = .usize → ∀ s, f.call [.str s] = none) := by
  constructor
  · have h2 : retrieveParam f.pty (YarnValueWrapper.fromValue v) = none :=
      (retrieveParam_fromValue_none f.pty v).mpr h
    simp [YarnFnWrapper.call, YarnFnKind.call, YarnFn1.call_single, h2]
  · intro hp s
    have h2 : retrieveParam f.pty
        (YarnValueWrapper.fromValue (.str s)) = none := by
      rw [hp]; rfl
    simp [YarnFn1.call_single, h2]

/-- Witness for C3: Scenario E — the numeric-argument doubling function
invoked with the dynamic string "hi" fails. -/
theorem c3_conversion_failure_fails_call_witness :
    doubleFn.pty.convTarget.tryFromYarn (.str "hi") = none ∧
      (YarnFnWrapper.mk (.f1 doubleFn) "m" "g").call [.str "hi"] = none :=
  ⟨rfl,
    (c3_conversion_failure_fails_call doubleFn "m" "g" (.str "hi") rfl).1⟩

/-- C4: borrowed-mode `&str` extraction first converts the slot's dynamic
value into an owned `String` stored inside the slot (`converted` holds it
afterwards) and hands out a view of that stored string; wrapping the
string-length function and invoking it with the dynamic string "hello"
yields the dynamic number 5. -/
theorem c4_str_ref_via_owned_intermediate :
    (∀ s : String,
        retrieveParam .strRef (YarnValueWrapper.fromValue (.str s)) =
          some (s, ⟨none, some (.str s)⟩)) ∧
      ∀ m p : String,
        (YarnFnWrapper.mk (.f1 strLenFn) m p).call [.str "hello"] =
          some (.number 5) := by
  constructor
  · intro s; rfl
  · intro m p; rfl

/-- C5: a clone of a type-erased callable is a complete copy of it:
invoking the clone gives the same result as invoking the original on every
argument sequence, and the clone equals the original field-wise (all state
is immutable, so no mutable state can be shared). -/
theorem c5_clone_invocation_identical (w : YarnFnWrapper)
    (args : List YarnValue) :
    w.cloneBox.call args = w.call args ∧ w.cloneBox = w := by
  cases w
  exact ⟨rfl, rfl⟩

/-- C6: a slot is converted at most once per call: owned extraction
(`String` and `usize`) consumes both the raw and the converted value of
its slot, a further extraction of the consumed slot only panics (the
`unwrap` of the emptied `raw`), and the public call path performs exactly
one retrieval on the single fresh slot it creates. -/
theorem c6_slot_consumed_once (v : YarnValue) (t : ParamTy)
    (f : YarnFn1) :
    (∀ (p : String) (w' : YarnValueWrapper),
        retrieveParam .string (YarnValueWrapper.fromValue v) =
          some (p, w') → w' = ⟨none, none⟩) ∧
      (∀ (n : Nat) (w' : YarnValueWrapper),
        retrieveParam .usize (YarnValueWrapper.fromValue v) =
          some (n, w') → w' = ⟨none, none⟩) ∧
      retrieveParam t ⟨none, none⟩ = none ∧
      f.call [v] =
        (retrieveParam f.pty (YarnValueWrapper.fromValue v)).map
          (fun p => f.func p.1) := by
  refine ⟨?_, ?_, retrieveParam_emptySlot t, YarnFn1.call_single f v⟩
  · intro p w' h
    rw [retrieveParam_string] at h
    cases v <;> simp_all [YarnValue.tryIntoString]
  · intro n w' h
    rw [retrieveParam_usize] at h
    cases v <;> simp_all [YarnValue.tryIntoUsize]

/-- Witness for C6: owned `String` extraction of the dynamic string "a"
leaves the slot fully consumed, and extraction of a consumed slot fails. -/
theorem c6_slot_consumed_once_witness :
    retrieveParam .string (YarnValueWrapper.fromValue (.str "a")) =
        some ("a", ⟨none, none⟩) ∧
      (⟨none, none⟩ : YarnValueWrapper) = ⟨none, none⟩ ∧
      retrieveParam .usize ⟨none, none⟩ = none :=
  ⟨rfl,
    (c6_slot_consumed_once (.str "a") .usize doubleFn).1 "a" ⟨none, none⟩
      rfl,
    (c6_slot_consumed_once (.str "a") .usize doubleFn).2.2.1⟩

/-- C7: `parameter_types()` has length equal to the declared arity, listing
the declared parameter type identity in declaration order, and
`return_type()` is determined by the declared return type alone, so any
number of repeated queries of the same callable all give one identity. -/
theorem c7_introspection_stable (w : YarnFnWrapper) (f : YarnFn1)
    (m p : String) :
    w.parameterTypes.length = w.function.arity ∧
      (YarnFnWrapper.mk (.f1 f) m p).parameterTypes = [f.pty.typeIdent] ∧
      ∀ k : Nat,
        (List.replicate k w).map YarnFnWrapper.returnType =
          List.replicate k w.returnType := by
  refine ⟨?_, rfl, ?_⟩
  · cases w with
    | mk k m' p' => cases k <;> rfl
  · intro k
    simp [List.map_replicate]

lemma debugFormat_path_inj (a b : YarnFnWrapper)
    (hm : a.markerName = b.markerName)
    (h : a.debugString = b.debugString) :
    a.functionPath = b.functionPath := by
  unfold YarnFnWrapper.debugString at h
  rw [hm] at h
  have hd := congrArg String.data h
  simp only [String.data_append, List.append_assoc] at hd
  have h1 := List.append_cancel_left hd
  have h2 := List.append_cancel_left h1
  have h3 := List.append_cancel_right h2
  exact String.ext h3

/-- C8: equality of two type-erased callables is exactly equality of their
debug descriptions (marker type name plus function type path): two
wrappings with the same marker and function type names compare equal, and
wrappings with the same marker but different function type names compare
unequal. -/
theorem c8_debug_equality (a b : YarnFnWrapper) :
    (a.beqUntyped b = true ↔ a.debugString = b.debugString) ∧
      (a.markerName = b.markerName → a.functionPath = b.functionPath →
        a.beqUntyped b = true) ∧
      (a.markerName = b.markerName → a.functionPath ≠ b.functionPath →
        a.beqUntyped b = false) := by
  refine ⟨?_, ?_, ?_⟩
  · simp [YarnFnWrapper.beqUntyped]
  · intro h1 h2
    simp [YarnFnWrapper.beqUntyped, YarnFnWrapper.debugString, h1, h2]
  · intro h1 h2
    simp only [YarnFnWrapper.beqUntyped, beq_eq_false_iff_ne, ne_eq]
    intro hcontra
    exact h2 (debugFormat_path_inj a b h1 hcontra)

/-- Witness for C8: two wrappings with marker name "M" and function path
"f" compare equal; a wrapping with function path "g" instead compares
unequal to them. -/
theorem c8_debug_equality_witness :
    ("M" : String) = "M" ∧ ("f" : String) = "f" ∧ ("f" : String) ≠ "g" ∧
      YarnFnWrapper.beqUntyped
          (YarnFnWrapper.mk (.f0 constTrueFn) "M" "f")
          (YarnFnWrapper.mk (.f0 constTrueFn) "M" "f") = true ∧
      YarnFnWrapper.beqUntyped
          (YarnFnWrapper.mk (.f0 constTrueFn) "M" "f")
          (YarnFnWrapper.mk (.f0 constTrueFn) "M" "g") = false :=
  ⟨rfl, rfl, by decide,
    (c8_debug_equality (YarnFnWrapper.mk (.f0 constTrueFn) "M" "f")
      (YarnFnWrapper.mk (.f0 constTrueFn) "M" "f")).2.1 rfl rfl,
    (c8_debug_equality (YarnFnWrapper.mk (.f0 constTrueFn) "M" "f")
      (YarnFnWrapper.mk (.f0 constTrueFn) "M" "g")).2.2 rfl (by decide)⟩

/-- C9: extraction mutates only its own slot of the call state: extraction
at one position leaves the other position's wrapper unchanged and acts on
its own slot exactly as standalone extraction does, so an extraction at the
other position afterwards returns the same extracted value and same
own-slot state as it would from the initial state. -/
theorem c9_slot_frame_independence (t t2 : ParamTy)
    (s : YarnValueWrapper × YarnValueWrapper) (p : t.carrier)
    (s' : YarnValueWrapper × YarnValueWrapper) :
    (retrieveAt1 t s = some (p, s') →
        s'.2 = s.2 ∧ retrieveParam t s.1 = some (p, s'.1)) ∧
      (retrieveAt2 t s = some (p, s') →
        s'.1 = s.1 ∧ retrieveParam t s.2 = some (p, s'.2)) ∧
      (retrieveAt1 t s = some (p, s') →
        retrieveAt2 t2 s' =
          (retrieveAt2 t2 s).map (fun q => (q.1, (s'.1, q.2.2)))) := by
  obtain ⟨a1, a2⟩ := s
  obtain ⟨b1, b2⟩ := s'
  refine ⟨?_, ?_, ?_⟩
  · intro h
    unfold retrieveAt1 at h
    cases hr : retrieveParam t a1 with
    | none => rw [hr] at h; simp at h
    | some q =>
      obtain ⟨qp, qw⟩ := q
      rw [hr] at h
      simp only [Option.some.injEq, Prod.mk.injEq] at h
      obtain ⟨hqp, hqw, hs2⟩ := h
      subst hqp hqw hs2
      exact ⟨rfl, rfl⟩
  · intro h
    unfold retrieveAt2 at h
    cases hr : retrieveParam t a2 with
    | none => rw [hr] at h; simp at h
    | some q =>
      obtain ⟨qp, qw⟩ := q
      rw [hr] at h
      simp only [Option.some.injEq, Prod.mk.injEq] at h
      obtain ⟨hqp, hs1, hqw⟩ := h
      subst hqp hs1 hqw
      exact ⟨rfl, rfl⟩
  · intro h
    unfold retrieveAt1 at h
    cases hr : retrieveParam t a1 with
    | none => rw [hr] at h; simp at h
    | some q =>
      obtain ⟨qp, qw⟩ := q
      rw [hr] at h
      simp only [Option.some.injEq, Prod.mk.injEq] at h
      obtain ⟨hqp, hqw, hs2⟩ := h
      subst hqp hqw hs2
      cases hr2 : retrieveParam t2 a2 with
      | none => simp [retrieveAt2, hr2]
      | some q2 =>
        obtain ⟨p2, w2⟩ := q2
        simp [retrieveAt2, hr2]

/-- Witness for C9: borrowed `&str` extraction at the first slot leaves the
second slot's wrapper untouched, so a later extraction at the second slot
acts as it would from the initial state. -/
theorem c9_slot_frame_independence_witness :
    retrieveAt1 .strRef
        (YarnValueWrapper.fromValue (.str "a"),
          YarnValueWrapper.fromValue (.number 3)) =
        some ("a",
          (⟨none, some (.str "a")⟩, YarnValueWrapper.fromValue (.number 3))) ∧
      retrieveAt2 .usize
          (⟨none, some (.str "a")⟩,
            YarnValueWrapper.fromValue (.number 3)) =
        (retrieveAt2 .usize
            (YarnValueWrapper.fromValue (.str "a"),
              YarnValueWrapper.fromValue (.number 3))).map
          (fun q =>
            (q.1, ((⟨none, some (.str "a")⟩ : YarnValueWrapper), q.2.2))) :=
  ⟨rfl,
    (c9_slot_frame_independence .strRef .usize
      (YarnValueWrapper.fromValue (.str "a"),
        YarnValueWrapper.fromValue (.number 3)) "a"
      (⟨none, some (.str "a")⟩,
        YarnValueWrapper.fromValue (.number 3))).2.2 rfl⟩

/-- C10: a failed invocation never reaches the native function: failure of
the generated call is exactly an arity mismatch or an argument conversion
failure, it is independent of which function is wrapped, and it yields no
result value. -/
theorem c10_failure_before_native_call (f g : YarnFn1) (f0 : YarnFn0)
    (args : List YarnValue) (hp : f.pty = g.pty) :
    (f.call args = none ↔
        (args.length ≠ 1 ∨
          ∃ v, args = [v] ∧ f.pty.convTarget.tryFromYarn v = none)) ∧
      (f.call args = none ↔ g.call args = none) ∧
      (f0.call args = none ↔ args ≠ []) := by
  have key : ∀ (h : YarnFn1) (as : List YarnValue),
      h.call as = none ↔
        (as.length ≠ 1 ∨
          ∃ v, as = [v] ∧ h.pty.convTarget.tryFromYarn v = none) := by
    intro h as
    match as with
    | [] => simp [YarnFn1.call]
    | [v] =>
      rw [YarnFn1.call_single]
      simp [Option.map_eq_none', retrieveParam_fromValue_none]
    | v :: u :: rest => simp [YarnFn1.call]
  refine ⟨key f args, ?_, ?_⟩
  · rw [key f args, key g args, hp]
  · cases args <;> simp [YarnFn0.call]

/-- Witness for C10: the 1-ary doubling function invoked with zero
arguments fails and yields no value. -/
theorem c10_failure_before_native_call_witness :
    doubleFn.pty = doubleFn.pty ∧ doubleFn.call [] = none :=
  ⟨rfl,
    ((c10_failure_before_native_call doubleFn doubleFn constTrueFn []
        rfl).1).mpr (Or.inl (by decide))⟩

end YarnSpinner
